import Mathlib

/-!
Shallow embedding of the winamp-spotify client's auth/token lifecycle and
playback-state reconciliation logic (src/lib/spotify.ts and the useSpotify
hook), with theorems checking the specification's claims against it.

Modelling conventions:
* `localStorage` is a record of the fixed keys the app uses; a missing key
  is `none`.  (JS treats an empty-string value as falsy in the guards below;
  stored tokens/verifiers are real nonempty strings, so keys here are either
  absent or hold a meaningful value.)
* Network I/O is a parameter: each embedded function takes the outcome of
  its `fetch` (rejected promise, non-ok response, or parsed JSON body) and
  returns its result together with the storage left behind.
* `spotify_token_expires_at` is stored string-encoded in the source and read
  back with `parseInt`; it is modelled directly as the numeric epoch-ms value.
-/

namespace WinampSpotify

/-- The fixed localStorage keys the app reads and writes. -/
structure Storage where
  spotify_code_verifier : Option String
  spotify_access_token : Option String
  spotify_refresh_token : Option String
  spotify_token_expires_at : Option Nat
deriving DecidableEq, Repr

/-- Parsed JSON body of a token-endpoint response:
`{access_token, refresh_token?, expires_in}`.  The exchange response always
carries a refresh token; the refresh response may omit it. -/
structure TokenResponse where
  access_token : String
  refresh_token : Option String
  expires_in : Nat
deriving DecidableEq, Repr

/-- Outcome of a `fetch` against the token endpoint as the caller observes it:
the promise rejects, the response has `ok = false`, or it parses to data. -/
inductive HttpOutcome (α : Type) where
  | rejected
  | notOk
  | ok (data : α)
deriving DecidableEq, Repr

/-- The errors `exchangeCodeForToken` can throw.
`noCodeVerifier` is `Error('No code verifier found')`,
`exchangeFailed` is `Error('Failed to exchange code for token')`,
`fetchRejected` is a propagated network rejection. -/
inductive ExchangeError where
  | noCodeVerifier
  | fetchRejected
  | exchangeFailed
deriving DecidableEq, Repr

deriving instance DecidableEq for Except

/-- What a call to `exchangeCodeForToken` produces: its return/throw value,
the storage it leaves behind, and whether the token-endpoint POST was issued. -/
structure ExchangeResult where
  result : Except ExchangeError TokenResponse
  store : Storage
  tokenRequestIssued : Bool
deriving DecidableEq, Repr

/-- Embedding of `exchangeCodeForToken` (src/lib/spotify.ts): read the stored
code verifier, throw `No code verifier found` if absent (before any network
call), POST to the token endpoint, throw on a non-ok response, and on success
remove the verifier from storage and return the parsed data. -/
def exchangeCodeForToken (store : Storage) (outcome : HttpOutcome TokenResponse) :
    ExchangeResult :=
  match store.spotify_code_verifier with
  | none =>
      { result := Except.error ExchangeError.noCodeVerifier
        store := store
        tokenRequestIssued := false }
  | some _ =>
      match outcome with
      | HttpOutcome.rejected =>
          { result := Except.error ExchangeError.fetchRejected
            store := store
            tokenRequestIssued := true }
      | HttpOutcome.notOk =>
          { result := Except.error ExchangeError.exchangeFailed
            store := store
            tokenRequestIssued := true }
      | HttpOutcome.ok data =>
          { result := Except.ok data
            store := { store with spotify_code_verifier := none }
            tokenRequestIssued := true }

/-- The error `refreshAccessToken` throws on a non-ok response
(`Failed to refresh token`) or a rejected fetch. -/
inductive RefreshError where
  | fetchRejected
  | refreshFailed
deriving DecidableEq, Repr

/-- Embedding of `refreshAccessToken` (src/lib/spotify.ts): POST the refresh
grant, throw on non-ok, otherwise return the parsed body. -/
def refreshAccessToken (outcome : HttpOutcome TokenResponse) :
    Except RefreshError TokenResponse :=
  match outcome with
  | HttpOutcome.rejected => Except.error RefreshError.fetchRejected
  | HttpOutcome.notOk => Except.error RefreshError.refreshFailed
  | HttpOutcome.ok data => Except.ok data

/-- Result of the hook's mount-time token load/refresh effect: the storage it
leaves behind, the in-memory `accessToken`/`refreshToken` state it set
(starting from the initial `null`s), and how many refresh requests it issued. -/
structure LoadEffectResult where
  store : Storage
  accessToken : Option String
  refreshToken : Option String
  refreshRequestCount : Nat
deriving DecidableEq, Repr

/-- Embedding of the `useSpotify` mount effect that loads tokens from
localStorage: if an access token and expiry are stored and `now < expiresAt`,
adopt them; else if a refresh token is stored, call `refreshAccessToken` once —
on success persist the new access token and expiry (and the rotated refresh
token when the server supplies one), on failure remove all three token keys. -/
def tokenLoadEffect (s : Storage) (now : Nat) (outcome : HttpOutcome TokenResponse) :
    LoadEffectResult :=
  match s.spotify_access_token, s.spotify_token_expires_at with
  | some storedAccess, some expiresAt =>
      if now < expiresAt then
        { store := s
          accessToken := some storedAccess
          refreshToken := s.spotify_refresh_token
          refreshRequestCount := 0 }
      else
        match s.spotify_refresh_token with
        | some _ =>
            match refreshAccessToken outcome with
            | Except.ok data =>
                let newExpiresAt := now + data.expires_in * 1000
                let store1 : Storage :=
                  { s with
                    spotify_access_token := some data.access_token
                    spotify_token_expires_at := some newExpiresAt }
                match data.refresh_token with
                | some rotated =>
                    { store := { store1 with spotify_refresh_token := some rotated }
                      accessToken := some data.access_token
                      refreshToken := some rotated
                      refreshRequestCount := 1 }
                | none =>
                    { store := store1
                      accessToken := some data.access_token
                      refreshToken := none
                      refreshRequestCount := 1 }
            | Except.error _ =>
                { store :=
                    { s with
                      spotify_access_token := none
                      spotify_refresh_token := none
                      spotify_token_expires_at := none }
                  accessToken := none
                  refreshToken := none
                  refreshRequestCount := 1 }
        | none =>
            { store := s
              accessToken := none
              refreshToken := none
              refreshRequestCount := 0 }
  | _, _ =>
      { store := s
        accessToken := none
        refreshToken := none
        refreshRequestCount := 0 }

/-- Album sub-object of a track: `{uri, name, images}` (image URLs). -/
structure Album where
  uri : String
  name : String
  images : List String
deriving DecidableEq, Repr

/-- Artist sub-object of a track: `{uri, name}`. -/
structure Artist where
  uri : String
  name : String
deriving DecidableEq, Repr

/-- The `WebPlaybackTrack` shape (the hook's track type).  The source field
`type` is a reserved word here and is rendered `type_`. -/
structure WebPlaybackTrack where
  uri : String
  id : String
  type_ : String
  media_type : String
  name : String
  is_playable : Bool
  album : Album
  artists : List Artist
deriving DecidableEq, Repr

/-- The `track_window` sub-object.  The TS interface declares `current_track`
as always present, but the poll merge can leave it `undefined` at runtime
(when there is no previous snapshot and the poll carries no item), so it is
modelled as optional. -/
structure TrackWindow where
  current_track : Option WebPlaybackTrack
  previous_tracks : List WebPlaybackTrack
  next_tracks : List WebPlaybackTrack
deriving DecidableEq, Repr

/-- The `WebPlaybackState` playback snapshot held by the hook.  Fields no
claim touches (`context`, `disallows`) are omitted. -/
structure WebPlaybackState where
  paused : Bool
  position : Nat
  repeat_mode : Nat
  shuffle : Bool
  track_window : TrackWindow
  duration : Option Nat
deriving DecidableEq, Repr

/-- The track object (`item`) of a poll response from the current-playback
endpoint. -/
structure PollItem where
  uri : String
  id : String
  name : String
  album : Album
  artists : List Artist
  type_ : String
  duration_ms : Nat
deriving DecidableEq, Repr

/-- Parsed JSON body of a 200 response from the current-playback endpoint
(the fields the poll merge reads). -/
structure PollResponse where
  is_playing : Bool
  progress_ms : Nat
  shuffle_state : Bool
  repeat_state : String
  item : Option PollItem
deriving DecidableEq, Repr

/-- Embedding of the poll-effect merge in `useSpotify`: translate the poll
response's shape into the `WebPlaybackState` shape (`progress_ms` becomes
`position`, `is_playing` is inverted into `paused`, the repeat string maps to
the numeric enum off 0 / context 1 / otherwise 2) and merge it over the
previous snapshot.  `current_track` is rebuilt from `state.item` when one is
carried and otherwise inherited whole from the previous snapshot; the
previous/next track lists are inherited (defaulting to `[]`); `duration`
is set from `state.item?.duration_ms`. -/
def mergePoll (prev : Option WebPlaybackState) (state : PollResponse) :
    WebPlaybackState :=
  { paused := !state.is_playing
    position := state.progress_ms
    shuffle := state.shuffle_state
    repeat_mode :=
      if state.repeat_state = "off" then 0
      else if state.repeat_state = "context" then 1
      else 2
    track_window :=
      { current_track :=
          match state.item with
          | some item =>
              some
                { uri := item.uri
                  id := item.id
                  name := item.name
                  album := item.album
                  artists := item.artists
                  type_ := item.type_
                  media_type := "audio"
                  is_playable := true }
          | none => prev.bind fun p => p.track_window.current_track
        previous_tracks := (prev.map fun p => p.track_window.previous_tracks).getD []
        next_tracks := (prev.map fun p => p.track_window.next_tracks).getD [] }
    duration := state.item.map fun item => item.duration_ms }

/-- An HTTP response as `fetchCurrentPlayback` sees it: a status code and a
body available when the status is not 204. -/
structure HttpResponse (α : Type) where
  status : Nat
  body : α
deriving DecidableEq, Repr

/-- Embedding of `fetchCurrentPlayback` (src/lib/spotify.ts): a 204 response
returns `null` (no active playback) without touching the body; any other
response has its JSON body parsed and returned.  A rejected fetch propagates
to the caller and is modelled at the call site (`PollFetchResult.fetchError`). -/
def fetchCurrentPlayback (resp : HttpResponse PollResponse) : Option PollResponse :=
  if resp.status = 204 then none else some resp.body

/-- What one poll-interval tick observes from `fetchCurrentPlayback`:
a rejection/thrown error, or its returned value (`none` on a 204). -/
inductive PollFetchResult where
  | fetchError
  | ok (state : Option PollResponse)
deriving DecidableEq, Repr

/-- Embedding of one tick of the 1-second poll effect: on a thrown error the
catch block only logs, leaving the snapshot untouched; a `null` state fails
the `if (state)` guard, also leaving the snapshot untouched; otherwise the
merged snapshot is stored. -/
def pollStep (prev : Option WebPlaybackState) (r : PollFetchResult) :
    Option WebPlaybackState :=
  match r with
  | PollFetchResult.fetchError => prev
  | PollFetchResult.ok none => prev
  | PollFetchResult.ok (some st) => some (mergePoll prev st)

/-- The fixed poll period passed to `setInterval` in the poll effect (ms). -/
def pollIntervalMs : Nat := 1000

/-- The remote endpoints the facade's commands and the token effects can hit,
identified by method + path family. -/
inductive Endpoint where
  | tokenRefresh
  | tokenExchange
  | playerPlay
  | playerPause
  | playerNext
  | playerPrevious
  | playerSeek
  | playerVolume
  | playerShuffle
  | playerRepeat
deriving DecidableEq, Repr

/-- The three repeat settings `setRepeat` accepts. -/
inductive RepeatSetting where
  | off
  | context
  | track
deriving DecidableEq, Repr

/-- Embedding of the `togglePlay` callback's command decision: a no-op without
a token; otherwise `playbackState?.paused` being truthy (a snapshot exists and
is paused) selects play, and anything else — an unpaused snapshot or no
snapshot at all — selects pause. -/
def togglePlay (accessToken : Option String)
    (playbackState : Option WebPlaybackState) : Option Endpoint :=
  match accessToken with
  | none => none
  | some _ =>
      if (playbackState.map fun p => p.paused).getD false then
        some Endpoint.playerPlay
      else
        some Endpoint.playerPause

/-- Embedding of the `cycleRepeat` callback: a silent no-op unless both a
token and a snapshot are present; otherwise issue `setRepeat` with
`modes[(repeat_mode + 1) % 3]` where `modes = ['off', 'context', 'track']`. -/
def cycleRepeat (accessToken : Option String)
    (playbackState : Option WebPlaybackState) : Option RepeatSetting :=
  match accessToken, playbackState with
  | some _, some p =>
      let modes : List RepeatSetting :=
        [RepeatSetting.off, RepeatSetting.context, RepeatSetting.track]
      some (modes.get ⟨(p.repeat_mode + 1) % 3, Nat.mod_lt _ (by omega)⟩)
  | _, _ => none

/-- The facade commands `useSpotify` exposes (those that issue remote calls). -/
inductive FacadeCommand where
  | togglePlayCmd
  | playTrack
  | playContext
  | next
  | previous
  | seekTo
  | setPlayerVolume
  | toggleShuffle
  | cycleRepeatCmd
deriving DecidableEq, Repr

/-- The in-memory hook state a facade command consults. -/
structure SessionState where
  storage : Storage
  accessToken : Option String
  refreshToken : Option String
  playbackState : Option WebPlaybackState
deriving DecidableEq, Repr

/-- The remote requests each facade command issues, per its guards in the
source: every command is a no-op without a token; `toggleShuffle` and
`cycleRepeat` additionally require a snapshot; `togglePlay` picks play or
pause from the snapshot.  No facade command ever calls the token endpoint. -/
def commandRequests (c : FacadeCommand) (st : SessionState) : List Endpoint :=
  match st.accessToken with
  | none => []
  | some tok =>
      match c with
      | FacadeCommand.togglePlayCmd =>
          match togglePlay (some tok) st.playbackState with
          | some e => [e]
          | none => []
      | FacadeCommand.playTrack => [Endpoint.playerPlay]
      | FacadeCommand.playContext => [Endpoint.playerPlay]
      | FacadeCommand.next => [Endpoint.playerNext]
      | FacadeCommand.previous => [Endpoint.playerPrevious]
      | FacadeCommand.seekTo => [Endpoint.playerSeek]
      | FacadeCommand.setPlayerVolume => [Endpoint.playerVolume]
      | FacadeCommand.toggleShuffle =>
          match st.playbackState with
          | some _ => [Endpoint.playerShuffle]
          | none => []
      | FacadeCommand.cycleRepeatCmd =>
          match st.playbackState with
          | some _ => [Endpoint.playerRepeat]
          | none => []

/-- One caller in the single cooperative scheduling domain: either the
mount-time token load/refresh effect, or one facade command invocation. -/
inductive Caller where
  | load (now : Nat) (outcome : HttpOutcome TokenResponse)
  | command (c : FacadeCommand)
deriving Repr

/-- Whether a caller is a facade command (as opposed to the load effect). -/
def isFacadeCommand : Caller → Bool
  | Caller.command _ => true
  | Caller.load _ _ => false

/-- Run one caller: facade commands issue their requests and leave the hook
state unchanged; the load effect runs `tokenLoadEffect`, updating storage and
the in-memory tokens and issuing its refresh requests. -/
def runCaller (c : Caller) (st : SessionState) : List Endpoint × SessionState :=
  match c with
  | Caller.command fc => (commandRequests fc st, st)
  | Caller.load now outcome =>
      let r := tokenLoadEffect st.storage now outcome
      (List.replicate r.refreshRequestCount Endpoint.tokenRefresh,
       { st with
         storage := r.store
         accessToken := r.accessToken
         refreshToken := r.refreshToken })

/-- Run a sequence of callers in order, collecting every request issued. -/
def runCallers : List Caller → SessionState → List Endpoint × SessionState
  | [], st => ([], st)
  | c :: rest, st =>
      let r1 := runCaller c st
      let r2 := runCallers rest r1.2
      (r1.1 ++ r2.1, r2.2)

/-- How many refresh requests a sequence of callers issues in total. -/
def refreshRequestCount (evs : List Caller) (st : SessionState) : Nat :=
  ((runCallers evs st).1.filter fun e => e = Endpoint.tokenRefresh).length

/-- Claim C1: when no code verifier is stored, `exchangeCodeForToken` fails
with the missing-session error (`No code verifier found`) and no
token-exchange request is issued. -/
theorem exchange_without_session_fails (s : Storage)
    (outcome : HttpOutcome TokenResponse)
    (h : s.spotify_code_verifier = none) :
    (exchangeCodeForToken s outcome).result =
        Except.error ExchangeError.noCodeVerifier
    ∧ (exchangeCodeForToken s outcome).tokenRequestIssued = false := by
  simp [exchangeCodeForToken, h]

/-- Witness for C1: the empty storage has no verifier, and the exchange fails
there without issuing a request. -/
theorem exchange_without_session_fails_witness :
    (Storage.mk none none none none).spotify_code_verifier = none
    ∧ ((exchangeCodeForToken (Storage.mk none none none none)
          HttpOutcome.notOk).result = Except.error ExchangeError.noCodeVerifier
      ∧ (exchangeCodeForToken (Storage.mk none none none none)
          HttpOutcome.notOk).tokenRequestIssued = false) :=
  ⟨rfl, exchange_without_session_fails (Storage.mk none none none none)
    HttpOutcome.notOk rfl⟩

/-- Claim C2: when the stored token is expired and the refresh attempt fails,
the load effect removes the access-token, refresh-token and expiry keys from
storage. -/
theorem refresh_failure_clears_token_state (s : Storage) (now : Nat)
    (outcome : HttpOutcome TokenResponse) (a r : String) (e : Nat)
    (err : RefreshError)
    (ha : s.spotify_access_token = some a)
    (he : s.spotify_token_expires_at = some e)
    (hr : s.spotify_refresh_token = some r)
    (hexpired : e ≤ now)
    (hfail : refreshAccessToken outcome = Except.error err) :
    (tokenLoadEffect s now outcome).store.spotify_access_token = none
    ∧ (tokenLoadEffect s now outcome).store.spotify_refresh_token = none
    ∧ (tokenLoadEffect s now outcome).store.spotify_token_expires_at = none := by
  simp [tokenLoadEffect, ha, he, hr, Nat.not_lt.mpr hexpired, hfail]

/-- Witness for C2: a storage holding an expired token whose refresh gets a
non-ok response ends with all three token keys removed. -/
theorem refresh_failure_clears_token_state_witness :
    ((Storage.mk none (some "A") (some "R") (some 1000)).spotify_access_token
        = some "A"
      ∧ (1000 : Nat) ≤ 2000)
    ∧ ((tokenLoadEffect (Storage.mk none (some "A") (some "R") (some 1000))
          2000 HttpOutcome.notOk).store.spotify_access_token = none
      ∧ (tokenLoadEffect (Storage.mk none (some "A") (some "R") (some 1000))
          2000 HttpOutcome.notOk).store.spotify_refresh_token = none
      ∧ (tokenLoadEffect (Storage.mk none (some "A") (some "R") (some 1000))
          2000 HttpOutcome.notOk).store.spotify_token_expires_at = none) :=
  ⟨⟨rfl, by decide⟩,
    refresh_failure_clears_token_state
      (Storage.mk none (some "A") (some "R") (some 1000)) 2000
      HttpOutcome.notOk "A" "R" 1000 RefreshError.refreshFailed
      rfl rfl rfl (by decide) rfl⟩

/-- Claim C3: when a poll response carries no item, the merged snapshot's
`current_track` is the previous snapshot's `current_track` sub-object,
inherited whole — never nulled or rebuilt field-by-field. -/
theorem poll_merge_inherits_current_track_whole (prev : WebPlaybackState)
    (state : PollResponse) (h : state.item = none) :
    (mergePoll (some prev) state).track_window.current_track =
      prev.track_window.current_track := by
  simp [mergePoll, h]

/-- Witness for C3: an item-less poll response merged over a snapshot holding
a track leaves that exact track sub-object in place. -/
theorem poll_merge_inherits_current_track_whole_witness :
    (PollResponse.mk false 0 false "off" none).item = none
    ∧ (mergePoll
        (some (WebPlaybackState.mk true 7 0 false
          (TrackWindow.mk
            (some (WebPlaybackTrack.mk "u0" "t0" "track" "audio" "Old" true
              (Album.mk "au" "an" []) [Artist.mk "ru" "rn"]))
            [] [])
          (some 90)))
        (PollResponse.mk false 0 false "off" none)).track_window.current_track =
      (WebPlaybackState.mk true 7 0 false
          (TrackWindow.mk
            (some (WebPlaybackTrack.mk "u0" "t0" "track" "audio" "Old" true
              (Album.mk "au" "an" []) [Artist.mk "ru" "rn"]))
            [] [])
          (some 90)).track_window.current_track :=
  ⟨rfl,
    poll_merge_inherits_current_track_whole
      (WebPlaybackState.mk true 7 0 false
        (TrackWindow.mk
          (some (WebPlaybackTrack.mk "u0" "t0" "track" "audio" "Old" true
            (Album.mk "au" "an" []) [Artist.mk "ru" "rn"]))
          [] [])
        (some 90))
      (PollResponse.mk false 0 false "off" none) rfl⟩

/-- Claim C4: the spec's poll-translation scenario — merging the poll response
with `is_playing = true`, `progress_ms = 5000`, `shuffle_state = true`,
`repeat_state = "context"` and an item `t1` of 200000 ms into an empty
snapshot yields paused = false, position = 5000, shuffle = true, the numeric
repeat mode 1 (context), current track `t1`, and duration 200000. -/
theorem poll_translation_scenario :
    let item : PollItem :=
      { uri := "spotify:track:t1", id := "t1", name := "Track One"
        album := { uri := "spotify:album:a1", name := "Album", images := ["i"] }
        artists := [{ uri := "spotify:artist:r1", name := "Artist" }]
        type_ := "track", duration_ms := 200000 }
    let resp : PollResponse :=
      { is_playing := true, progress_ms := 5000, shuffle_state := true
        repeat_state := "context", item := some item }
    (mergePoll none resp).paused = false
    ∧ (mergePoll none resp).position = 5000
    ∧ (mergePoll none resp).shuffle = true
    ∧ (mergePoll none resp).repeat_mode = 1
    ∧ ((mergePoll none resp).track_window.current_track.map fun t => t.id) =
        some "t1"
    ∧ (mergePoll none resp).duration = some 200000 := by
  decide

/-- Claim C5: a failing poll leaves the snapshot exactly as it was, and the
poll period is the fixed 1000 ms. -/
theorem poll_failure_preserves_snapshot (prev : Option WebPlaybackState) :
    pollStep prev PollFetchResult.fetchError = prev ∧ pollIntervalMs = 1000 :=
  ⟨rfl, rfl⟩

/-- Counterexample to C6 as stated: in an authenticated state with no known
snapshot, `playbackState?.paused` is falsy, so `togglePlay` issues a pause
command — not the play command the claim's "otherwise" branch demands. -/
theorem togglePlay_without_snapshot_pauses :
    togglePlay (some "T") none = some Endpoint.playerPause
    ∧ Endpoint.playerPause ≠ Endpoint.playerPlay := by
  decide

/-- Claim C6 (amended): with a token present, `togglePlay` issues play when
the snapshot is paused, pause when the snapshot is unpaused, and pause as
well when no snapshot is known; without a token it is a no-op. -/
theorem togglePlay_direction (tok : String) (p : WebPlaybackState)
    (ps : Option WebPlaybackState) :
    togglePlay (some tok) (some { p with paused := true }) =
        some Endpoint.playerPlay
    ∧ togglePlay (some tok) (some { p with paused := false }) =
        some Endpoint.playerPause
    ∧ togglePlay (some tok) none = some Endpoint.playerPause
    ∧ togglePlay none ps = none := by
  refine ⟨?_, ?_, rfl, rfl⟩ <;> simp [togglePlay]

/-- Counterexample to C7 as stated: after a 204 from the playback endpoint,
the poll effect's `if (state)` guard drops the `null`, so the held snapshot
is still the previous stale one — no distinct "no active playback" snapshot
replaces it. -/
theorem poll_204_keeps_stale_snapshot :
    fetchCurrentPlayback
        (HttpResponse.mk 204 (PollResponse.mk false 0 false "off" none)) = none
    ∧ pollStep
        (some (WebPlaybackState.mk false 1 0 false (TrackWindow.mk none [] [])
          none))
        (PollFetchResult.ok (fetchCurrentPlayback
          (HttpResponse.mk 204 (PollResponse.mk false 0 false "off" none)))) =
      some (WebPlaybackState.mk false 1 0 false (TrackWindow.mk none [] [])
        none)
    ∧ pollStep
        (some (WebPlaybackState.mk false 1 0 false (TrackWindow.mk none [] [])
          none))
        (PollFetchResult.ok (fetchCurrentPlayback
          (HttpResponse.mk 204 (PollResponse.mk false 0 false "off" none)))) ≠
      none := by
  decide

/-- Claim C7 (amended): a 204 from the current-playback endpoint is not an
error — `fetchCurrentPlayback` returns an explicit `null` ("no active
playback") without parsing a body — but the poll merge discards that `null`
and retains the previous snapshot unchanged. -/
theorem playback_204_maps_to_null (body : PollResponse)
    (prev : Option WebPlaybackState) :
    fetchCurrentPlayback (HttpResponse.mk 204 body) = none
    ∧ pollStep prev
        (PollFetchResult.ok (fetchCurrentPlayback (HttpResponse.mk 204 body)))
      = prev :=
  ⟨rfl, rfl⟩

/-- Counterexample to C8 as stated: on a non-ok token-exchange response the
function throws before the `removeItem` line, so the code verifier is still
in storage after the failed call. -/
theorem exchange_error_keeps_verifier :
    (exchangeCodeForToken (Storage.mk (some "XYZ") none none none)
        HttpOutcome.notOk).result = Except.error ExchangeError.exchangeFailed
    ∧ (exchangeCodeForToken (Storage.mk (some "XYZ") none none none)
        HttpOutcome.notOk).store.spotify_code_verifier = some "XYZ" := by
  decide

/-- Claim C8 (amended): the stored code verifier is deleted exactly on a
successful exchange; on a failed exchange (non-ok response or rejected
fetch) storage is left untouched, so the verifier survives the failure. -/
theorem exchange_verifier_lifecycle (s : Storage) (data : TokenResponse) :
    (exchangeCodeForToken s (HttpOutcome.ok data)).store.spotify_code_verifier
        = none
    ∧ (exchangeCodeForToken s HttpOutcome.notOk).store = s
    ∧ (exchangeCodeForToken s HttpOutcome.rejected).store = s := by
  refine ⟨?_, ?_, ?_⟩ <;>
    cases h : s.spotify_code_verifier <;>
      simp [exchangeCodeForToken, h]

/-- No facade command ever issues a token-refresh request: each one only hits
player endpoints (or is a guarded no-op). -/
theorem commandRequests_no_refresh (fc : FacadeCommand) (st : SessionState) :
    ((commandRequests fc st).filter fun e => e = Endpoint.tokenRefresh) = [] := by
  rcases st with ⟨sto, tok, rtok, ps⟩
  cases fc <;> cases tok <;> rcases ps with _ | p <;>
    first
      | (simp [commandRequests, togglePlay]; done)
      | (cases hb : p.paused <;> simp [commandRequests, togglePlay, hb])

/-- A run consisting only of facade commands leaves the hook state unchanged
and issues no refresh request. -/
theorem runCallers_commands_only (evs : List Caller) (st : SessionState)
    (h : ∀ c ∈ evs, isFacadeCommand c = true) :
    (runCallers evs st).2 = st
    ∧ (((runCallers evs st).1.filter fun e => e = Endpoint.tokenRefresh) = []) := by
  induction evs generalizing st with
  | nil => exact ⟨rfl, rfl⟩
  | cons c rest ih =>
    cases c with
    | load now outcome =>
        have := h (Caller.load now outcome) (List.mem_cons_self _ _)
        simp [isFacadeCommand] at this
    | command fc =>
        have hrest : ∀ c ∈ rest, isFacadeCommand c = true := by
          intro c hc
          exact h c (List.mem_cons_of_mem _ hc)
        obtain ⟨ih1, ih2⟩ := ih st hrest
        refine ⟨?_, ?_⟩
        · simpa [runCallers, runCaller] using ih1
        · simp [runCallers, runCaller, List.filter_append,
            commandRequests_no_refresh, ih2]

/-- When the stored token is expired and a refresh token is present, the load
effect issues exactly one refresh request, whatever the outcome. -/
theorem tokenLoadEffect_expired_refresh_count (s : Storage) (now : Nat)
    (outcome : HttpOutcome TokenResponse) (a r : String) (e : Nat)
    (ha : s.spotify_access_token = some a)
    (he : s.spotify_token_expires_at = some e)
    (hr : s.spotify_refresh_token = some r)
    (hexpired : e ≤ now) :
    (tokenLoadEffect s now outcome).refreshRequestCount = 1 := by
  cases outcome with
  | rejected =>
      simp [tokenLoadEffect, refreshAccessToken, ha, he, hr,
        Nat.not_lt.mpr hexpired]
  | notOk =>
      simp [tokenLoadEffect, refreshAccessToken, ha, he, hr,
        Nat.not_lt.mpr hexpired]
  | ok data =>
      cases hd : data.refresh_token <;>
        simp [tokenLoadEffect, refreshAccessToken, ha, he, hr,
          Nat.not_lt.mpr hexpired, hd]

/-- Running callers over an appended list is running them in sequence. -/
theorem runCallers_append (xs ys : List Caller) (st : SessionState) :
    runCallers (xs ++ ys) st =
      ((runCallers xs st).1 ++ (runCallers ys (runCallers xs st).2).1,
        (runCallers ys (runCallers xs st).2).2) := by
  induction xs generalizing st with
  | nil => simp [runCallers]
  | cons c rest ih =>
      simp [runCallers, ih, List.append_assoc]

/-- Claim C9: in the single cooperative scheduling domain, any interleaving
of facade commands around the one token-load effect, run while the stored
token is expired and refreshable, issues exactly one refresh request — the
load effect's; no command ever triggers its own refresh. -/
theorem refresh_single_flight (pre post : List Caller) (now : Nat)
    (outcome : HttpOutcome TokenResponse) (st : SessionState)
    (a r : String) (e : Nat)
    (hpre : ∀ c ∈ pre, isFacadeCommand c = true)
    (hpost : ∀ c ∈ post, isFacadeCommand c = true)
    (ha : st.storage.spotify_access_token = some a)
    (he : st.storage.spotify_token_expires_at = some e)
    (hr : st.storage.spotify_refresh_token = some r)
    (hexpired : e ≤ now) :
    refreshRequestCount (pre ++ Caller.load now outcome :: post) st = 1 := by
  obtain ⟨hst, hfil⟩ := runCallers_commands_only pre st hpre
  have hcount :=
    tokenLoadEffect_expired_refresh_count st.storage now outcome a r e
      ha he hr hexpired
  have hload : (runCaller (Caller.load now outcome) st).1 =
      [Endpoint.tokenRefresh] := by
    simp [runCaller, hcount]
  obtain ⟨-, hpostfil⟩ :=
    runCallers_commands_only post
      (runCaller (Caller.load now outcome) st).2 hpost
  simp [refreshRequestCount, runCallers_append, hst, List.filter_append,
    hfil, runCallers, hload, hpostfil]

/-- Witness for C9: two facade commands around the load effect on an expired
storage issue exactly one refresh request. -/
theorem refresh_single_flight_witness :
    refreshRequestCount
      [Caller.command FacadeCommand.next,
        Caller.load 2000 HttpOutcome.notOk,
        Caller.command FacadeCommand.togglePlayCmd]
      (SessionState.mk (Storage.mk none (some "A") (some "R") (some 1000))
        none none none) = 1 :=
  refresh_single_flight [Caller.command FacadeCommand.next]
    [Caller.command FacadeCommand.togglePlayCmd] 2000 HttpOutcome.notOk
    (SessionState.mk (Storage.mk none (some "A") (some "R") (some 1000))
      none none none)
    "A" "R" 1000 (by decide) (by decide) rfl rfl rfl (by decide)

/-- Claim C10: with a token and a snapshot present, `cycleRepeat` issues the
set-repeat command one step along the fixed cycle off, context, track, off —
`modes[(repeat_mode + 1) % 3]`, shown here for every residue of the numeric
repeat mode; lacking the token or the snapshot it is a silent no-op. -/
theorem cycleRepeat_spec (tok : String) (p : WebPlaybackState)
    (ps : Option WebPlaybackState) (k : Nat) :
    cycleRepeat (some tok) (some { p with repeat_mode := 3 * k }) =
        some RepeatSetting.context
    ∧ cycleRepeat (some tok) (some { p with repeat_mode := 3 * k + 1 }) =
        some RepeatSetting.track
    ∧ cycleRepeat (some tok) (some { p with repeat_mode := 3 * k + 2 }) =
        some RepeatSetting.off
    ∧ cycleRepeat none ps = none
    ∧ cycleRepeat (some tok) none = none := by
  have h0 : (3 * k + 1) % 3 = 1 := by omega
  have h1 : (3 * k + 1 + 1) % 3 = 2 := by omega
  have h2 : (3 * k + 2 + 1) % 3 = 0 := by omega
  refine ⟨?_, ?_, ?_, ?_, rfl⟩
  · simp [cycleRepeat, h0]
  · simp [cycleRepeat, h1]
  · simp [cycleRepeat, h2]
  · cases ps <;> rfl

end WinampSpotify
